import Mathlib

set_option maxRecDepth 40000

/-!
Verification of the X-Poster news pipeline (src/deduplicator.py,
src/summarizer.py, src/x_poster.py) against its natural-language
specification.

Text is embedded as `List Char` (one element per Unicode code point, the
unit Python's `len`, slicing and `str` comparison operate on).  Each Python
string primitive used by the sources is re-implemented below with the exact
Python semantics (`split(' ')` keeping empty fields, `' '.join`, `s[:n]`
slicing with negative indices, `strip`, lexicographic comparison by code
point), so that every definition is executable by the kernel.
-/

/-- Text as a list of Unicode code points, the unit Python strings are
measured and sliced in. -/
abbrev Str := List Char

/-- Python whitespace characters recognised by `str.strip` (ASCII range). -/
def is_py_space (c : Char) : Bool :=
  c = ' ' || c = '\t' || c = '\n' || c = '\r' || c = '\x0b' || c = '\x0c'

/-- Python `str.strip()`: drop leading and trailing whitespace. -/
def py_strip (l : Str) : Str :=
  ((l.dropWhile is_py_space).reverse.dropWhile is_py_space).reverse

/-- Python `s.split(' ')`: split at every single space, keeping empty
fields (so the result always has one more element than the number of
spaces). -/
def split_on_space : Str → List Str
  | [] => [[]]
  | c :: rest =>
    if c = ' ' then [] :: split_on_space rest
    else
      match split_on_space rest with
      | [] => [[c]]
      | w :: ws => (c :: w) :: ws

/-- Python `s[:m]` for an `int` bound `m`: a non-negative bound takes a
clamped prefix, a negative bound drops `|m|` characters from the end. -/
def py_slice (l : Str) (m : Int) : Str :=
  if 0 ≤ m then l.take m.toNat else l.take (l.length - (-m).toNat)

/-- Python `s1 < s2`: lexicographic comparison by code point. -/
def str_lt : Str → Str → Bool
  | [], [] => false
  | [], _ :: _ => true
  | _ :: _, [] => false
  | c :: cs, d :: ds =>
    if c.toNat < d.toNat then true
    else if d.toNat < c.toNat then false
    else str_lt cs ds

/-- Python `s1 <= s2`: lexicographic comparison by code point. -/
def str_le : Str → Str → Bool
  | [], _ => true
  | _ :: _, [] => false
  | c :: cs, d :: ds =>
    if c.toNat < d.toNat then true
    else if d.toNat < c.toNat then false
    else str_le cs ds

/-- Python `s.endswith(c)` for a single character `c`. -/
def ends_with_char (l : Str) (c : Char) : Bool :=
  l.getLast? == some c

theorem str_le_eq_not_str_lt (a b : Str) : str_le a b = !str_lt b a := by
  induction a generalizing b with
  | nil => cases b <;> simp [str_le, str_lt]
  | cons c cs ih =>
    cases b with
    | nil => simp [str_le, str_lt]
    | cons d ds =>
      simp only [str_le, str_lt]
      rcases Nat.lt_trichotomy c.toNat d.toNat with h | h | h
      · simp [h, Nat.not_lt.mpr (Nat.le_of_lt h)]
      · simp [h, Nat.lt_irrefl, ih]
      · simp [h, Nat.not_lt.mpr (Nat.le_of_lt h)]

/-!
## Article data model

`Article` mirrors the article dictionaries produced by the feed fetcher:
each field is `none` when the corresponding key is absent from the dict
and `some s` when it is present (possibly with an empty value), so that
Python's `article.get(k, default)` is `field.getD default` and
`k in article` is `field.isSome`.
-/

structure Article where
  title : Option Str := none
  link : Option Str := none
  source : Option Str := none
  description : Option Str := none
  summary : Option Str := none
  source_feed : Option Str := none
deriving DecidableEq

/-!
## Deduplicator (src/deduplicator.py)

The article history is an insertion-ordered association list from
fingerprint to ISO-8601 timestamp string, mirroring the JSON object /
Python dict `Deduplicator.article_history`.  The MD5 digest
(`hashlib.md5(identifier.encode()).hexdigest()`) is an external primitive
and is carried as an explicit function parameter `md5`; every statement
below holds for an arbitrary digest function.
-/

/-- The persisted fingerprint → timestamp map (Python dict, insertion
ordered, keys unique). -/
abbrev History := List (Str × Str)

/-- `Deduplicator.generate_article_id`: digest of
`article.get('link', article.get('title', ''))`. -/
def generate_article_id (md5 : Str → Str) (article : Article) : Str :=
  md5 (article.link.getD (article.title.getD []))

/-- `Deduplicator.is_duplicate`: key membership test
`article_id in self.article_history`. -/
def is_duplicate (md5 : Str → Str) (history : History) (article : Article) : Bool :=
  history.any (fun kv => kv.1 == generate_article_id md5 article)

/-- Python dict assignment `d[k] = v`: overwrite in place if the key is
present, otherwise append at the end (insertion order). -/
def dict_set (history : History) (k v : Str) : History :=
  if history.any (fun kv => kv.1 == k) then
    history.map (fun kv => if kv.1 == k then (k, v) else kv)
  else history ++ [(k, v)]

/-- `Deduplicator.mark_as_processed`: record the article's fingerprint
with the current timestamp `now` (`datetime.now().isoformat()`). -/
def mark_as_processed (md5 : Str → Str) (now : Str) (history : History)
    (article : Article) : History :=
  dict_set history (generate_article_id md5 article) now

/-- `Deduplicator.filter_duplicates`: keep each non-duplicate article in
input order, marking it processed immediately so later articles of the
batch see it; returns the kept articles and the final history. -/
def filter_duplicates (md5 : Str → Str) (now : Str) :
    List Article → History → List Article × History
  | [], history => ([], history)
  | a :: rest, history =>
    if is_duplicate md5 history a then
      filter_duplicates md5 now rest history
    else
      let history' := mark_as_processed md5 now history a
      let r := filter_duplicates md5 now rest history'
      (a :: r.1, r.2)

/-- The specification's description of `filterDuplicates`: an article is
kept iff its fingerprint is neither among the fingerprints already seen
at the start nor equal to the fingerprint of an earlier kept article of
the same batch; output preserves input order. -/
def filter_duplicates_spec (md5 : Str → Str) (seen : List Str) :
    List Article → List Article
  | [] => []
  | a :: rest =>
    if generate_article_id md5 a ∈ seen then
      filter_duplicates_spec md5 seen rest
    else
      a :: filter_duplicates_spec md5 (generate_article_id md5 a :: seen) rest

/-- `Deduplicator.cleanup_old_entries`, with `cutoff` standing for the
ISO-8601 rendering of `datetime.now() - timedelta(days=max_history_days)`.
Returns the pruned history and whether `_save_article_history` was called.
The Python code keeps entries with `timestamp >= cutoff_date` (string
comparison) and saves only when the entry count changed. -/
def cleanup_old_entries (cutoff : Str) (history : History) : History × Bool :=
  if history = [] then (history, false)
  else
    let newHistory := history.filter (fun kv => str_le cutoff kv.2)
    if history.length ≠ newHistory.length then (newHistory, true)
    else (newHistory, false)

/-!
## State-file loading (src/deduplicator.py, `_load_article_history`)

The file system interaction is modelled by a `StateFile` value (absent,
present but unreadable, or present with contents) and the JSON parser by
an explicit `parse` parameter that may fail with a Python exception.
`open`/`read` raise `IOError`, `json.load` raises `JSONDecodeError`; both
are caught by the `except (json.JSONDecodeError, IOError)` clause.
-/

inductive PyExc
  | JSONDecodeError (msg : Str)
  | IOError (msg : Str)
deriving DecidableEq

inductive StateFile
  | absent
  | unreadable (msg : Str)
  | contents (s : Str)
deriving DecidableEq

/-- `os.path.exists(self.state_file)`. -/
def path_exists : StateFile → Bool
  | .absent => false
  | _ => true

/-- `open(self.state_file, 'r')` followed by reading: yields the contents
or raises `IOError`. -/
def open_and_read : StateFile → Except PyExc Str
  | .absent => .error (.IOError "No such file or directory".data)
  | .unreadable msg => .error (.IOError msg)
  | .contents s => .ok s

/-- `Deduplicator._load_article_history`: if the state file exists, read
and JSON-parse it, catching `JSONDecodeError` and `IOError` by returning
the empty history (after logging); if it does not exist, return the empty
history.  A caught exception never escapes, so the result is always
`Except.ok`. -/
def load_article_history (parse : Str → Except PyExc History)
    (f : StateFile) : Except PyExc History :=
  if path_exists f then
    match open_and_read f >>= parse with
    | .ok h => .ok h
    | .error _ => .ok []
  else .ok []

/-!
## Summarizer (src/summarizer.py)

NLTK's `sent_tokenize` is an external trained model and is carried as an
explicit tokenizer parameter `tok`; `TextSummarizer._extractive_summarize`
(whose internals depend on `word_tokenize`, stopwords and numpy) is
likewise carried as a parameter where `summarize` consults it.  The regex
host extraction `re.search(r'https?://(?:www\.)?([^/]+)', feed)` is the
parameter `extract_host` (`none` = no match).  Everything else is embedded
concretely.
-/

/-- Characters matched by the regex class `\w` (ASCII word characters;
the articles processed by the pipeline are ASCII). -/
def is_word_char (c : Char) : Bool := c.isAlphanum || c = '_'

/-- Characters kept by `re.sub(r'[^\w\s.,;:!?\'"-]', '', text)`: word
characters, whitespace and basic sentence punctuation. -/
def is_allowed_char (c : Char) : Bool :=
  is_word_char c || is_py_space c ||
    c ∈ ['.', ',', ';', ':', '!', '?', Char.ofNat 39, '"', '-']

/-- `re.sub(p+, ' ', text)` for a character class `p`: replace every
maximal run of characters satisfying `p` by a single space.  The boolean
argument records whether the previous character was part of a run. -/
def collapse_runs (p : Char → Bool) : Bool → Str → Str
  | _, [] => []
  | inRun, c :: rest =>
    if p c then
      if inRun then collapse_runs p true rest
      else ' ' :: collapse_runs p true rest
    else c :: collapse_runs p false rest

/-- Characters matched by `[\n\t]`. -/
def is_nl_tab (c : Char) : Bool := c = '\n' || c = '\t'

/-- `TextSummarizer._clean_text`: collapse newline/tab runs to a space,
collapse space runs to a space, drop characters outside the allow-list,
then strip. -/
def clean_text (text : Str) : Str :=
  let text := collapse_runs is_nl_tab false text
  let text := collapse_runs (fun c => c = ' ') false text
  let text := text.filter is_allowed_char
  py_strip text

/-- `TextSummarizer._headline_first_sentence`: the stripped title, joined
with the first sentence of the cleaned description (falling back to the
`summary` field when `description` is absent); a title ending in a colon
is joined verbatim, otherwise terminal punctuation is ensured first. -/
def headline_first_sentence (tok : Str → List Str) (article : Article) : Str :=
  let headline := py_strip (article.title.getD [])
  let content := clean_text (match article.description with
    | some d => d
    | none => article.summary.getD [])
  let sentences := tok content
  let first_sentence := sentences.headD []
  if ends_with_char headline ':' then headline ++ ' ' :: first_sentence
  else
    let headline :=
      if headline ≠ [] ∧ ¬ (ends_with_char headline '.' ∨
          ends_with_char headline '!' ∨ ends_with_char headline '?') then
        headline ++ ['.']
      else headline
    if first_sentence ≠ [] then headline ++ ' ' :: first_sentence else headline

/-- The sentence-accumulation loop of `TextSummarizer._truncate_to_fit`:
append whole sentences (space separated) while the next sentence still
fits in `max_text_length`, breaking at the first that does not. -/
def accumulate_sentences (max_text_length : Int) : List Str → Str → Str
  | [], truncated => truncated
  | sentence :: rest, truncated =>
    if (truncated.length : Int) + sentence.length + 1 ≤ max_text_length then
      accumulate_sentences max_text_length rest
        (if truncated = [] then sentence else truncated ++ ' ' :: sentence)
    else truncated

/-- `TextSummarizer._truncate_to_fit`: return the text unchanged if it
fits in `max_length - suffix_length`; otherwise accumulate whole
sentences; if not even one sentence fits, take the first
`max_text_length` characters, drop the final partial word, and append an
ellipsis when the result is non-empty and shorter than the input. -/
def truncate_to_fit (tok : Str → List Str) (max_length : Nat) (text : Str)
    (suffix_length : Nat) : Str :=
  let max_text_length : Int := (max_length : Int) - suffix_length
  if (text.length : Int) ≤ max_text_length then text
  else
    let sentences := tok text
    let truncated := accumulate_sentences max_text_length sentences []
    if truncated = [] then
      let words := split_on_space (py_slice text max_text_length)
      let truncated := List.intercalate [' '] words.dropLast
      if truncated ≠ [] ∧ truncated.length < text.length then
        truncated ++ "...".data
      else truncated
    else truncated

/-- `TextSummarizer.summarize`: build the attribution suffix from source
and link (deriving the source from the feed host when absent), draft a
headline-plus-lead summary, truncate it to leave room for the suffix, try
the extractive summary when the draft is shorter than 100 characters and
a `summary` field exists (keeping the longer fitted draft), and append
the suffix. -/
def summarize (tok : Str → List Str) (extractive : Str → Nat → Str)
    (extract_host : Str → Option Str) (max_length : Nat)
    (include_source : Bool) (article : Article) : Str :=
  let link := article.link.getD []
  let source0 := article.source.getD []
  let source :=
    if source0 = [] then
      match article.source_feed with
      | some feed =>
        match extract_host feed with
        | some host => host
        | none => source0
      | none => source0
    else source0
  let suffix :=
    (if include_source ∧ source ≠ [] then
      " (via ".data ++ source ++ ")".data
    else []) ++
    (if link ≠ [] then ' ' :: link else [])
  let suffix_length := suffix.length
  let summary :=
    truncate_to_fit tok max_length (headline_first_sentence tok article)
      suffix_length
  let summary :=
    if summary.length < 100 ∧ article.summary.isSome then
      let extractive_summary :=
        truncate_to_fit tok max_length
          (extractive (article.summary.getD []) 2) suffix_length
      if summary.length < extractive_summary.length then extractive_summary
      else summary
    else summary
  summary ++ suffix

/-- `TextSummarizer.batch_summarize`: summarize each article in order,
appending an `(article, summary)` pair on success and skipping the
article when summarization raises.  The summarizer is carried as an
`Except`-valued parameter so that the exception path of the `try/except`
is represented. -/
def batch_summarize (summarize_fn : Article → Except Str Str) :
    List Article → List (Article × Str)
  | [] => []
  | a :: rest =>
    match summarize_fn a with
    | .ok s => (a, s) :: batch_summarize summarize_fn rest
    | .error _ => batch_summarize summarize_fn rest

/-- A sentence tokenizer agreeing with NLTK `sent_tokenize` on the inputs
used below: the empty text has no sentences, and a text with no internal
sentence boundary is a single sentence. -/
def single_sentence_tok (t : Str) : List Str := if t = [] then [] else [t]

/-!
## X Poster (src/x_poster.py)

The network is modelled by a function `net : Nat → Resp` giving the
response to the k-th `session.post` call of one `post_tweet` invocation
(a thrown `requests` exception is a `Resp.exn` response).  The wall clock
`now` models `int(time.time())` and advances by exactly the slept
duration; requests themselves take no model time.  Error strings built by
f-string interpolation are kept structured in `PostError` (their
rendering to text carries no logic).
-/

/-- One response of the create-tweet endpoint, or a transport exception. -/
inductive Resp
  | created (id : Option Str)
  | rateLimited (reset : Int)
  | httpError (code : Nat) (body : Str)
  | exn (msg : Str)
deriving DecidableEq

/-- The failure messages `post_tweet` can return: the interpolations of
`"Error posting tweet: {code} - {text}"`, `"Exception posting tweet:
{e}"`, and the literal `"Maximum retries exceeded"`. -/
inductive PostError
  | http (code : Nat) (body : Str)
  | exn (msg : Str)
  | maxRetriesExceeded
deriving DecidableEq

/-- The `(success, tweet_id or error message)` pair returned by
`post_tweet`. -/
inductive PostValue
  | posted (id : Option Str)
  | failed (e : PostError)
deriving DecidableEq

/-- Observable outcome of one `post_tweet` call: the returned value, the
number of network calls made, and the durations slept, in order. -/
structure PostTrace where
  value : PostValue
  calls : Nat
  sleeps : List Int
deriving DecidableEq

/-- Truthiness of one credential as tested by
`all([consumer_key, consumer_secret, access_token, access_token_secret])`:
an absent (`None`) or empty string is falsy. -/
def truthy_cred : Option Str → Bool
  | none => false
  | some s => !s.isEmpty

/-- The session set up by `XPoster.__init__` after credential resolution:
an `OAuth1Session` when all four credentials are truthy, otherwise `None`
(simulation mode). -/
def init_session (consumer_key consumer_secret access_token
    access_token_secret : Option Str) : Option Unit :=
  if truthy_cred consumer_key && truthy_cred consumer_secret &&
      truthy_cred access_token && truthy_cred access_token_secret then
    some ()
  else none

/-- The `for attempt in range(self.max_retries)` loop of
`XPoster.post_tweet`.  `fuel` is the number of loop iterations left
(initially `max_retries`), `attempt` the current loop index (equal to the
number of calls already made); falling off the loop returns
`(False, "Maximum retries exceeded")`.  A 429 sleeps
`max(reset - now, retry_delay)` and continues — `continue` advances the
`range` iterator, so it moves on to the next `attempt` value.  Any other
error sleeps `retry_delay` and retries unless this was the last attempt. -/
def post_tweet_loop (max_retries retry_delay : Nat) (net : Nat → Resp) :
    Nat → Nat → Int → List Int → PostTrace
  | 0, attempt, _, sleeps => ⟨.failed .maxRetriesExceeded, attempt, sleeps⟩
  | fuel + 1, attempt, now, sleeps =>
    match net attempt with
    | .created id => ⟨.posted id, attempt + 1, sleeps⟩
    | .rateLimited reset =>
      let wait := max (reset - now) (retry_delay : Int)
      post_tweet_loop max_retries retry_delay net fuel (attempt + 1)
        (now + wait) (sleeps ++ [wait])
    | .httpError code body =>
      if attempt + 1 < max_retries then
        post_tweet_loop max_retries retry_delay net fuel (attempt + 1)
          (now + retry_delay) (sleeps ++ [(retry_delay : Int)])
      else ⟨.failed (.http code body), attempt + 1, sleeps⟩
    | .exn msg =>
      if attempt + 1 < max_retries then
        post_tweet_loop max_retries retry_delay net fuel (attempt + 1)
          (now + retry_delay) (sleeps ++ [(retry_delay : Int)])
      else ⟨.failed (.exn msg), attempt + 1, sleeps⟩

/-- The poster state relevant to `post_tweet`: the session (or `None` in
simulation mode) and the retry configuration. -/
structure XPosterState where
  session : Option Unit
  max_retries : Nat
  retry_delay : Nat

/-- `XPoster.post_tweet`: with no session, log the text and report the
sentinel success without any network call; otherwise hard-truncate text
over 280 characters to `text[:277] + "..."` and run the retry loop.  The
second component is the text submitted (or, in simulation, logged). -/
def post_tweet (p : XPosterState) (net : Nat → Resp) (now : Int)
    (text : Str) : PostTrace × Str :=
  match p.session with
  | none => (⟨.posted (some "simulated_tweet_id".data), 0, []⟩, text)
  | some _ =>
    let text := if 280 < text.length then text.take 277 ++ "...".data else text
    (post_tweet_loop p.max_retries p.retry_delay net p.max_retries 0 now [],
      text)

/-- The non-rate-limit responses among the first `calls` network calls. -/
def ordinary_attempts (net : Nat → Resp) (calls : Nat) : Nat :=
  (List.range calls).countP (fun k =>
    match net k with
    | .rateLimited _ => false
    | _ => true)

/-- The sleep durations produced by consecutive rate-limit responses:
each wait is `max(reset - now, retry_delay)` and advances the clock. -/
def rate_limit_waits (retry_delay : Nat) (reset : Int) : Int → Nat → List Int
  | _, 0 => []
  | now, fuel + 1 =>
    let wait := max (reset - now) (retry_delay : Int)
    wait :: rate_limit_waits retry_delay reset (now + wait) fuel

/-!
## Theorems
-/

theorem is_duplicate_iff (md5 : Str → Str) (history : History) (a : Article) :
    is_duplicate md5 history a = true ↔
      generate_article_id md5 a ∈ history.map Prod.fst := by
  simp [is_duplicate, List.any_eq_true, List.mem_map]

theorem keys_dict_set_fresh (history : History) (k v : Str)
    (h : history.any (fun kv => kv.1 == k) = false) :
    (dict_set history k v).map Prod.fst = history.map Prod.fst ++ [k] := by
  simp [dict_set, h]

theorem filter_duplicates_spec_congr (md5 : Str → Str) :
    ∀ (l : List Article) (s₁ s₂ : List Str),
      (∀ x, x ∈ s₁ ↔ x ∈ s₂) →
      filter_duplicates_spec md5 s₁ l = filter_duplicates_spec md5 s₂ l := by
  intro l
  induction l with
  | nil => intro s₁ s₂ _; rfl
  | cons a rest ih =>
    intro s₁ s₂ hs
    simp only [filter_duplicates_spec]
    by_cases hmem : generate_article_id md5 a ∈ s₁
    · rw [if_pos hmem, if_pos ((hs _).mp hmem), ih _ _ hs]
    · rw [if_neg hmem, if_neg (fun hc => hmem ((hs _).mpr hc)),
        ih (generate_article_id md5 a :: s₁) (generate_article_id md5 a :: s₂)
          (fun x => by rw [List.mem_cons, List.mem_cons, hs x])]

theorem filter_duplicates_eq_spec (md5 : Str → Str) (now : Str) :
    ∀ (articles : List Article) (history : History),
      (filter_duplicates md5 now articles history).1 =
        filter_duplicates_spec md5 (history.map Prod.fst) articles := by
  intro articles
  induction articles with
  | nil => intro history; rfl
  | cons a rest ih =>
    intro history
    simp only [filter_duplicates, filter_duplicates_spec]
    by_cases hdup : is_duplicate md5 history a = true
    · rw [if_pos hdup, if_pos ((is_duplicate_iff md5 history a).mp hdup), ih]
    · have hdup' : is_duplicate md5 history a = false := by
        simpa using hdup
      have hkeys : (dict_set history (generate_article_id md5 a) now).map Prod.fst =
          history.map Prod.fst ++ [generate_article_id md5 a] :=
        keys_dict_set_fresh history _ now hdup'
      rw [if_neg (by simp [hdup']), if_neg (fun hc =>
        hdup ((is_duplicate_iff md5 history a).mpr hc))]
      simp only [mark_as_processed, ih, hkeys]
      rw [filter_duplicates_spec_congr md5 rest
        (history.map Prod.fst ++ [generate_article_id md5 a])
        (generate_article_id md5 a :: history.map Prod.fst)
        (fun x => by simp [List.mem_append, List.mem_cons, or_comm])]

/-- Claim C3: `filter_duplicates` returns, in input order, exactly the
articles whose fingerprint is neither in the store at the start nor equal
to the fingerprint of an earlier kept article of the same batch; in
particular `filter_duplicates [a, a]` on an empty store keeps only the
first occurrence, and a subsequent `filter_duplicates [a]` on the
resulting store keeps nothing. -/
theorem filter_duplicates_correct (md5 : Str → Str) (now now₂ : Str)
    (articles : List Article) (history : History) (a : Article) :
    (filter_duplicates md5 now articles history).1 =
      filter_duplicates_spec md5 (history.map Prod.fst) articles ∧
    (filter_duplicates md5 now [a, a] []).1 = [a] ∧
    (filter_duplicates md5 now₂ [a]
        (filter_duplicates md5 now [a, a] []).2).1 = [] := by
  refine ⟨filter_duplicates_eq_spec md5 now articles history, ?_, ?_⟩ <;>
    simp [filter_duplicates, is_duplicate, mark_as_processed, dict_set]

/-- Claim C5: `cleanup_old_entries` removes exactly the entries whose
timestamp is strictly older than the cutoff (entries equal to the cutoff
are retained), keeps the others unchanged in order, and persists the
store if and only if at least one entry was removed. -/
theorem cleanup_old_entries_correct (cutoff : Str) (history : History) :
    (cleanup_old_entries cutoff history).1 =
      history.filter (fun kv => !str_lt kv.2 cutoff) ∧
    ((cleanup_old_entries cutoff history).2 = true ↔
      ∃ kv ∈ history, str_lt kv.2 cutoff = true) := by
  have hpred : history.filter (fun kv => str_le cutoff kv.2) =
      history.filter (fun kv => !str_lt kv.2 cutoff) :=
    List.filter_congr (fun kv _ => str_le_eq_not_str_lt cutoff kv.2)
  have hiff : history.length ≠
        (history.filter (fun kv => str_le cutoff kv.2)).length ↔
      ∃ kv ∈ history, str_lt kv.2 cutoff = true := by
    constructor
    · intro h
      have hlt : (history.filter (fun kv => str_le cutoff kv.2)).length <
          history.length :=
        lt_of_le_of_ne (List.length_filter_le _ _) fun he => h he.symm
      obtain ⟨x, hx, hqx⟩ := List.length_filter_lt_length_iff_exists.mp hlt
      refine ⟨x, hx, ?_⟩
      simpa [str_le_eq_not_str_lt] using hqx
    · rintro ⟨x, hx, hlt⟩
      have : (history.filter (fun kv => str_le cutoff kv.2)).length <
          history.length :=
        List.length_filter_lt_length_iff_exists.mpr
          ⟨x, hx, by simp [str_le_eq_not_str_lt, hlt]⟩
      omega
  by_cases hnil : history = []
  · subst hnil; simp [cleanup_old_entries]
  · constructor
    · simp only [cleanup_old_entries, if_neg hnil]
      split <;> simpa using hpred
    · simp only [cleanup_old_entries, if_neg hnil]
      split
      · next h => exact iff_of_true rfl (hiff.mp h)
      · next h => exact iff_of_false (by simp) fun he => h (hiff.mpr he)

/-- Claim C7: `batch_summarize` returns, in input order, the pairs
`(article, summary)` for exactly the articles whose summarization
succeeds; an article whose summarization raises is skipped and the rest
of the batch is still processed. -/
theorem batch_summarize_skips_failures (summarize_fn : Article → Except Str Str)
    (articles : List Article) :
    batch_summarize summarize_fn articles =
      articles.filterMap (fun a =>
        (summarize_fn a).toOption.map (fun s => (a, s))) := by
  induction articles with
  | nil => rfl
  | cons a rest ih =>
    simp only [batch_summarize, List.filterMap_cons]
    cases h : summarize_fn a <;> simp [Except.toOption, h, ih]

/-- Claim C8: loading the article history never raises to the caller: an
absent state file, an unreadable state file, and malformed contents all
yield the empty history, and the result is an `ok` value for every state
file and parser. -/
theorem load_article_history_never_raises
    (parse : Str → Except PyExc History) :
    (∀ f, ∃ h, load_article_history parse f = .ok h) ∧
    load_article_history parse .absent = .ok [] ∧
    (∀ msg, load_article_history parse (.unreadable msg) = .ok []) ∧
    (∀ s e, parse s = .error e →
      load_article_history parse (.contents s) = .ok []) := by
  refine ⟨?_, rfl, fun msg => rfl, fun s e he => ?_⟩
  · intro f
    cases f with
    | absent => exact ⟨[], rfl⟩
    | unreadable msg => exact ⟨[], rfl⟩
    | contents s =>
      cases hp : parse s with
      | ok h =>
        exact ⟨h, by simp [load_article_history, path_exists, open_and_read,
          Bind.bind, Except.bind, hp]⟩
      | error e =>
        exact ⟨[], by simp [load_article_history, path_exists, open_and_read,
          Bind.bind, Except.bind, hp]⟩
  · simp [load_article_history, path_exists, open_and_read, Bind.bind,
      Except.bind, he]

theorem load_article_history_never_raises_witness :
    load_article_history (fun _ => .error (.JSONDecodeError "Expecting value".data))
      (.contents "not json".data) = .ok [] :=
  (load_article_history_never_raises
      (fun _ => .error (.JSONDecodeError "Expecting value".data))).2.2.2
    "not json".data (.JSONDecodeError "Expecting value".data) rfl

theorem post_tweet_loop_all_rate_limited (mr rd : Nat) (reset : Int) :
    ∀ (fuel attempt : Nat) (now : Int) (sleeps : List Int),
      post_tweet_loop mr rd (fun _ => .rateLimited reset) fuel attempt now
          sleeps =
        ⟨.failed .maxRetriesExceeded, attempt + fuel,
          sleeps ++ rate_limit_waits rd reset now fuel⟩ := by
  intro fuel
  induction fuel with
  | zero =>
    intro attempt now sleeps
    simp [post_tweet_loop, rate_limit_waits]
  | succ n ih =>
    intro attempt now sleeps
    show post_tweet_loop mr rd (fun _ => .rateLimited reset) n (attempt + 1)
        (now + max (reset - now) (rd : Int))
        (sleeps ++ [max (reset - now) (rd : Int)]) =
      ⟨.failed .maxRetriesExceeded, attempt + (n + 1),
        sleeps ++ rate_limit_waits rd reset now (n + 1)⟩
    rw [ih]
    have h1 : attempt + 1 + n = attempt + (n + 1) := by omega
    rw [h1]
    simp [rate_limit_waits, List.append_assoc]

/-- Claim C2 (amended): on a rate-limit response `post_tweet` sleeps
`max(reset − now, retry_delay)` and moves on to the next attempt, but
that attempt comes out of the same `max_retries` budget as ordinary
errors: against a network that always rate-limits, all `max_retries`
calls are consumed, the waits are exactly the `rate_limit_waits`
sequence (each `max(reset − now, retry_delay)` at the then-current
clock), and the call fails with `Maximum retries exceeded`. -/
theorem post_tweet_rate_limited_behavior (mr rd : Nat) (reset now : Int)
    (text : Str) :
    (post_tweet ⟨some (), mr, rd⟩ (fun _ => .rateLimited reset) now text).1 =
      ⟨.failed .maxRetriesExceeded, mr, rate_limit_waits rd reset now mr⟩ := by
  simp [post_tweet, post_tweet_loop_all_rate_limited]

/-- A network that answers every call with an ordinary server error. -/
def net_errors : Nat → Resp := fun _ => .httpError 500 "Internal Server Error".data

/-- The same network with one rate-limit response inserted in front. -/
def net_rate_limit_then_errors : Nat → Resp := fun k =>
  if k = 0 then .rateLimited 0 else .httpError 500 "Internal Server Error".data

/-- Claim C2, counterexample to the claim as stated: with
`max_retries = 3`, a run whose responses are all ordinary errors makes 3
non-rate-limit attempts, while the same error responses with one
rate-limit response inserted in front yield only 2 non-rate-limit
attempts — the rate-limited retry decremented the ordinary retry budget.
Three consecutive rate-limit responses alone exhaust all retries and
fail with `Maximum retries exceeded`. -/
theorem post_tweet_rate_limit_consumes_retry_cex :
    (post_tweet ⟨some (), 3, 5⟩ net_errors 1000 "news".data).1.calls = 3 ∧
    ordinary_attempts net_errors 3 = 3 ∧
    (post_tweet ⟨some (), 3, 5⟩ net_rate_limit_then_errors 1000
        "news".data).1.calls = 3 ∧
    ordinary_attempts net_rate_limit_then_errors 3 = 2 ∧
    (post_tweet ⟨some (), 3, 5⟩ (fun _ => Resp.rateLimited 0) 1000
        "news".data).1 =
      ⟨.failed .maxRetriesExceeded, 3, [5, 5, 5]⟩ := by
  decide

/-- Claim C6: when any of the four credentials is missing no session is
created, and `post_tweet` then returns success with the sentinel
identifier `simulated_tweet_id` for every input text, making no network
call and no sleep. -/
theorem post_tweet_simulation_on_missing_credentials
    (consumer_key consumer_secret access_token access_token_secret :
      Option Str)
    (h : consumer_key = none ∨ consumer_secret = none ∨
      access_token = none ∨ access_token_secret = none)
    (mr rd : Nat) (net : Nat → Resp) (now : Int) (text : Str) :
    init_session consumer_key consumer_secret access_token
        access_token_secret = none ∧
    post_tweet ⟨init_session consumer_key consumer_secret access_token
        access_token_secret, mr, rd⟩ net now text =
      (⟨.posted (some "simulated_tweet_id".data), 0, []⟩, text) := by
  have hs : init_session consumer_key consumer_secret access_token
      access_token_secret = none := by
    rcases h with h | h | h | h <;> subst h <;> simp [init_session, truthy_cred]
  refine ⟨hs, ?_⟩
  rw [hs]
  rfl

theorem post_tweet_simulation_on_missing_credentials_witness :
    init_session none (some "key".data) (some "token".data)
        (some "secret".data) = none ∧
    post_tweet ⟨init_session none (some "key".data) (some "token".data)
        (some "secret".data), 3, 5⟩ (fun _ => Resp.created none) 0
        "hello world".data =
      (⟨.posted (some "simulated_tweet_id".data), 0, []⟩,
        "hello world".data) :=
  post_tweet_simulation_on_missing_credentials none (some "key".data)
    (some "token".data) (some "secret".data) (Or.inl rfl) 3 5
    (fun _ => Resp.created none) 0 "hello world".data

/-- Claim C9: in simulation mode the 280-character hard-truncation is not
applied: `post_tweet` succeeds with the sentinel identifier and the
logged text is the input unmodified even when it is longer than 280
characters, while with a session the submitted text is
`text[:277] + "..."`. -/
theorem post_tweet_simulation_skips_truncation (mr rd : Nat)
    (net : Nat → Resp) (now : Int) (text : Str)
    (hlen : 280 < text.length) :
    post_tweet ⟨none, mr, rd⟩ net now text =
      (⟨.posted (some "simulated_tweet_id".data), 0, []⟩, text) ∧
    (post_tweet ⟨some (), mr, rd⟩ net now text).2 =
      text.take 277 ++ "...".data := by
  refine ⟨rfl, ?_⟩
  simp [post_tweet, hlen]

theorem post_tweet_simulation_skips_truncation_witness :
    post_tweet ⟨none, 3, 5⟩ (fun _ => Resp.created none) 0
        (List.replicate 281 'x') =
      (⟨.posted (some "simulated_tweet_id".data), 0, []⟩,
        List.replicate 281 'x') ∧
    (post_tweet ⟨some (), 3, 5⟩ (fun _ => Resp.created none) 0
        (List.replicate 281 'x')).2 =
      (List.replicate 281 'x').take 277 ++ "...".data :=
  post_tweet_simulation_skips_truncation 3 5 (fun _ => Resp.created none) 0
    (List.replicate 281 'x') (by simp)

/-- Claim C10: when the `link` key is present but empty the fingerprint
is the digest of the empty string regardless of the title, any two such
articles share a fingerprint, and `filter_duplicates` drops the second
of them. -/
theorem generate_article_id_empty_link (md5 : Str → Str) (a b : Article)
    (now : Str) (ha : a.link = some []) (hb : b.link = some []) :
    generate_article_id md5 a = md5 [] ∧
    generate_article_id md5 a = generate_article_id md5 b ∧
    (filter_duplicates md5 now [a, b] []).1 = [a] := by
  have hga : generate_article_id md5 a = md5 [] := by
    simp [generate_article_id, ha]
  have hgb : generate_article_id md5 b = md5 [] := by
    simp [generate_article_id, hb]
  refine ⟨hga, hga.trans hgb.symm, ?_⟩
  simp [filter_duplicates, is_duplicate, mark_as_processed, dict_set, hga, hgb]

theorem generate_article_id_empty_link_witness :
    generate_article_id (fun s => s)
        { title := some "First story".data, link := some [] } = [] ∧
    generate_article_id (fun s => s)
        { title := some "First story".data, link := some [] } =
      generate_article_id (fun s => s)
        { title := some "Second story".data, link := some [] } ∧
    (filter_duplicates (fun s => s) "2026-10-12T00:00:00".data
        [{ title := some "First story".data, link := some [] },
         { title := some "Second story".data, link := some [] }] []).1 =
      [{ title := some "First story".data, link := some [] }] :=
  generate_article_id_empty_link (fun s => s)
    { title := some "First story".data, link := some [] }
    { title := some "Second story".data, link := some [] }
    "2026-10-12T00:00:00".data rfl rfl

/-- Claim C4 (failing input): `truncate_to_fit` with budget 5 and the
one-sentence draft `"aaaa b"` takes the word-level fallback — the first
5 characters are `"aaaa "`, dropping the final (empty) partial word
leaves `"aaaa"`, and the appended ellipsis yields `"aaaa..."` of length
7, exceeding the budget `max_length - suffix_length = 5`. -/
theorem truncate_to_fit_exceeds_budget :
    truncate_to_fit single_sentence_tok 5 "aaaa b".data 0 = "aaaa...".data ∧
    5 < (truncate_to_fit single_sentence_tok 5 "aaaa b".data 0).length := by
  decide

/-- A 281-character title (100 `a`s, a space, 177 `b`s, and the final
word `cd`) with no other article fields. -/
def c1_title : Str :=
  List.replicate 100 'a' ++ ' ' :: (List.replicate 177 'b' ++ [' ', 'c', 'd'])

def c1_article : Article := { title := some c1_title }

/-- Claim C1 (failing input): with the default configuration
(`max_length = 280`, `include_source = true`) and an article whose only
field is a 281-character title, the draft is the title plus a terminal
period (282 characters, one sentence); no sentence fits, the word-level
fallback keeps the first 278 characters and appends `"..."`, and
`summarize` returns a 281-character summary — longer than the configured
maximum 280. -/
theorem summarize_exceeds_max_length :
    (summarize single_sentence_tok (fun _ _ => []) (fun _ => none) 280 true
        c1_article).length = 281 ∧
    280 < (summarize single_sentence_tok (fun _ _ => []) (fun _ => none) 280
        true c1_article).length := by
  decide
